import Mathlib

/-!
Shallow embedding of the asynchronous-transfer core of `usb1.py`
(python-libusb1): the `USBTransfer` state machine, the
`USBTransferHelper` completion dispatcher, and the `USBPoller` event
bridge.

Conventions used throughout:

* A Python method that can raise becomes a Lean function returning
  `Except PyError …`; raising an exception before any attribute
  assignment leaves the object unchanged, which the `Except` style
  captures by simply not producing a new state.
* Calls into the native libusb layer (`libusb_submit_transfer`,
  `libusb_cancel_transfer`, …) are modelled by taking the integer the
  native call returns as an explicit argument: the wrapper's control
  flow depends only on that integer.
* Python `ValueError` (the spec's InvalidState / InvalidValue),
  `libusb1.USBError` (the spec's NativeError), `TypeError` and
  `NotImplementedError` are the error kinds the embedded code can raise.
* Durations handled by `USBPoller.poll` are Python floats in seconds;
  they are embedded as rationals, `Option ℚ` standing for
  float-or-None.
-/

namespace Usb1

/-- Error kinds raised by the embedded Python code.  `valueError` is
Python's `ValueError` (the spec's InvalidState / InvalidValue),
`usbError code` is `libusb1.USBError` carrying the native return code
(the spec's NativeError), `typeError` is Python's `TypeError` (raised
e.g. on a call with the wrong number of arguments), and
`notImplementedError` is Python's `NotImplementedError`. -/
inductive PyError where
  | valueError : String → PyError
  | usbError : Int → PyError
  | typeError : PyError
  | notImplementedError : PyError
  deriving DecidableEq, Repr

/-- Modelled from the spec: the native "not found" error code
(`libusb1.LIBUSB_ERROR_NOT_FOUND`; the `libusb1` constants module is
not under `src/`).  The numeric value follows libusb. -/
def LIBUSB_ERROR_NOT_FOUND : Int := -5

/-- Modelled from the spec: the fixed outcome enumeration
(`libusb1.LIBUSB_TRANSFER_*`; the `libusb1` constants module is not
under `src/`).  Numeric values follow libusb's
`enum libusb_transfer_status`. -/
def LIBUSB_TRANSFER_COMPLETED : Nat := 0

/-- Modelled from the spec: see `LIBUSB_TRANSFER_COMPLETED`. -/
def LIBUSB_TRANSFER_ERROR : Nat := 1

/-- Modelled from the spec: see `LIBUSB_TRANSFER_COMPLETED`. -/
def LIBUSB_TRANSFER_TIMED_OUT : Nat := 2

/-- Modelled from the spec: see `LIBUSB_TRANSFER_COMPLETED`. -/
def LIBUSB_TRANSFER_CANCELLED : Nat := 3

/-- Modelled from the spec: see `LIBUSB_TRANSFER_COMPLETED`. -/
def LIBUSB_TRANSFER_STALL : Nat := 4

/-- Modelled from the spec: see `LIBUSB_TRANSFER_COMPLETED`. -/
def LIBUSB_TRANSFER_NO_DEVICE : Nat := 5

/-- Modelled from the spec: see `LIBUSB_TRANSFER_COMPLETED`. -/
def LIBUSB_TRANSFER_OVERFLOW : Nat := 6

/-- Modelled from the spec: size of a USB control setup packet
(`libusb1.LIBUSB_CONTROL_SETUP_SIZE`, not under `src/`); 8 bytes. -/
def LIBUSB_CONTROL_SETUP_SIZE : Nat := 8

/-- Embeds `EVENT_CALLBACK_SET` (usb1.py line 36): the frozenset of the seven
transfer-status codes a dispatch callback may be registered for. -/
def EVENT_CALLBACK_SET : List Nat :=
  [LIBUSB_TRANSFER_COMPLETED, LIBUSB_TRANSFER_ERROR,
   LIBUSB_TRANSFER_TIMED_OUT, LIBUSB_TRANSFER_CANCELLED,
   LIBUSB_TRANSFER_STALL, LIBUSB_TRANSFER_NO_DEVICE,
   LIBUSB_TRANSFER_OVERFLOW]

/-- Transfer kind recorded in the native `libusb_transfer.type` field. -/
inductive TransferType where
  | none
  | control
  | bulk
  | interrupt
  deriving DecidableEq, Repr

/-- The fields of the native `struct libusb_transfer` that the Python
code reads or writes (`self.__transfer.contents`).  Byte-width fields
(`endpoint`, every setup-packet byte) are stored reduced mod 256, as
ctypes truncates assignments to `c_ubyte`. -/
structure NativeTransfer where
  type : TransferType
  endpoint : Nat
  buffer : List Nat
  length : Nat
  status : Nat
  actual_length : Nat
  timeout : Nat
  deriving DecidableEq, Repr

/-- A freshly allocated native transfer: `libusb_alloc_transfer`
zero-initialises the structure. -/
def NativeTransfer.fresh : NativeTransfer :=
  { type := .none, endpoint := 0, buffer := [], length := 0,
    status := 0, actual_length := 0, timeout := 0 }

/-- A Python callable as stored in a transfer callback slot or a
dispatch table: its positional-parameter count and, abstractly, the
boolean (truthiness) value it returns when applied.  The argument list
carries the native contents of the transfer objects passed; a dispatch
callback can read every transfer field through it. -/
structure UserCallback where
  arity : Nat
  fn : List NativeTransfer → Bool

/-- Python function application: a call whose number of positional
arguments differs from the callable's parameter count raises
`TypeError`; otherwise the callable's boolean result is returned. -/
def callCallable (cb : UserCallback) (args : List NativeTransfer) :
    Except PyError Bool :=
  if args.length = cb.arity then .ok (cb.fn args) else .error .typeError

/-- Embeds `DEFAULT_ASYNC_TRANSFER_ERROR_CALLBACK = lambda x, y: False`
(usb1.py line 46): a two-parameter callable that returns `False`. -/
def DEFAULT_ASYNC_TRANSFER_ERROR_CALLBACK : UserCallback :=
  { arity := 2, fn := fun _ => false }

/-- Embeds `ctypes.create_string_buffer` with a single argument: from a byte
string it allocates `len + 1` bytes (the bytes plus a trailing NUL);
from an integer `n` it allocates `n` zero bytes.  `sizeof` of the
result is the length of the returned list. -/
def create_string_buffer : Sum (List Nat) Nat → List Nat
  | .inl s => s ++ [0]
  | .inr n => List.replicate n 0

/-- Embeds `ctypes.create_string_buffer(init, size)` with an explicit size:
a buffer of exactly `size` bytes, initialised with `init` and padded
with zeros. -/
def create_string_buffer2 (init : List Nat) (size : Nat) : List Nat :=
  init.take size ++ List.replicate (size - init.length) 0

/-- Embeds `libusb1.libusb_fill_control_setup` (not under `src/`, mirrors
libusb's inline helper): overwrites the first 8 bytes of the buffer
with the little-endian setup packet
`bmRequestType, bRequest, wValue, wIndex, wLength`. -/
def libusb_fill_control_setup (buf : List Nat)
    (request_type request value index length : Nat) : List Nat :=
  [request_type % 256, request % 256,
   value % 256, value / 256 % 256,
   index % 256, index / 256 % 256,
   length % 256, length / 256 % 256] ++ buf.drop LIBUSB_CONTROL_SETUP_SIZE

/-- The Python-side state of a `USBTransfer` instance: the native
transfer contents plus the instance attributes `__initialized`,
`__submitted` and `__callback` (usb1.py lines 59-62).  The native
handle itself, the device handle and `user_data` carry no
claim-relevant information and are not modelled. -/
structure USBTransfer where
  transfer : NativeTransfer
  initialized : Bool
  submitted : Bool
  callback : Option UserCallback

/-- A transfer as returned by `USBDeviceHandle.getTransfer`: class
defaults `__initialized = False`, `__submitted = False`,
`__callback = None`, native structure zeroed. -/
def USBTransfer.fresh : USBTransfer :=
  { transfer := NativeTransfer.fresh, initialized := false,
    submitted := false, callback := none }

namespace USBTransfer

/-- Embeds `USBTransfer.getStatus` (line 221): `self.__transfer.contents.status`. -/
def getStatus (t : USBTransfer) : Nat :=
  t.transfer.status

/-- Embeds `USBTransfer.getActualLength` (line 228). -/
def getActualLength (t : USBTransfer) : Nat :=
  t.transfer.actual_length

/-- Embeds `USBTransfer.isSubmitted` (line 272). -/
def isSubmitted (t : USBTransfer) : Bool :=
  t.submitted

/-- Embeds `USBTransfer.setCallback` (lines 119-125): raises `ValueError` when
submitted, otherwise stores the callback. -/
def setCallback (t : USBTransfer) (callback : Option UserCallback) :
    Except PyError USBTransfer :=
  if t.submitted then
    .error (.valueError "Cannot alter a submitted transfer")
  else
    .ok { t with callback := callback }

/-- Embeds `USBTransfer.getCallback` (line 127). -/
def getCallback (t : USBTransfer) : Option UserCallback :=
  t.callback

/-- Embeds `USBTransfer.setControl` (lines 133-162): raises `ValueError` when
submitted; otherwise allocates the buffer (8 setup bytes in front of
the payload), fills in the control setup packet with the
caller-supplied `request_type` unmodified, fills the native transfer
(`libusb_fill_control_transfer`: control type, endpoint 0, length =
setup size + wLength), stores the `callback` argument (Python default
`None`) and sets `__initialized`.  `buffer_or_len` is either payload
bytes (a string, `.inl`) or an expected length (`.inr`). -/
def setControl (t : USBTransfer) (request_type request value index : Nat)
    (buffer_or_len : Sum (List Nat) Nat) (callback : Option UserCallback)
    (timeout : Nat) : Except PyError USBTransfer :=
  if t.submitted then
    .error (.valueError "Cannot alter a submitted transfer")
  else
    let p : Nat × List Nat :=
      match buffer_or_len with
      | .inl s =>
        (s.length,
         create_string_buffer (.inl
           (List.replicate LIBUSB_CONTROL_SETUP_SIZE 32 ++ s)))
      | .inr n =>
        (n, create_string_buffer (.inr (n + LIBUSB_CONTROL_SETUP_SIZE)))
    let buf := libusb_fill_control_setup p.2 request_type request value
      index p.1
    .ok { t with
      transfer := { t.transfer with
        type := .control, endpoint := 0, buffer := buf,
        length := LIBUSB_CONTROL_SETUP_SIZE + p.1 % 65536,
        timeout := timeout },
      callback := callback,
      initialized := true }

/-- Embeds `USBTransfer.setBulk` (lines 164-186): raises `ValueError` when
submitted; otherwise allocates the buffer, fills the native transfer
(`libusb_fill_bulk_transfer`) with the caller-supplied `endpoint`
unmodified (truncated to `c_ubyte`), stores the `callback` argument
(Python default `None`) and sets `__initialized`. -/
def setBulk (t : USBTransfer) (endpoint : Nat)
    (buffer_or_len : Sum (List Nat) Nat) (callback : Option UserCallback)
    (timeout : Nat) : Except PyError USBTransfer :=
  if t.submitted then
    .error (.valueError "Cannot alter a submitted transfer")
  else
    let string_buffer := create_string_buffer buffer_or_len
    .ok { t with
      transfer := { t.transfer with
        type := .bulk, endpoint := endpoint % 256,
        buffer := string_buffer, length := string_buffer.length,
        timeout := timeout },
      callback := callback,
      initialized := true }

/-- Embeds `USBTransfer.setInterrupt` (lines 188-210): identical to `setBulk`
except for the transfer type. -/
def setInterrupt (t : USBTransfer) (endpoint : Nat)
    (buffer_or_len : Sum (List Nat) Nat) (callback : Option UserCallback)
    (timeout : Nat) : Except PyError USBTransfer :=
  if t.submitted then
    .error (.valueError "Cannot alter a submitted transfer")
  else
    let string_buffer := create_string_buffer buffer_or_len
    .ok { t with
      transfer := { t.transfer with
        type := .interrupt, endpoint := endpoint % 256,
        buffer := string_buffer, length := string_buffer.length,
        timeout := timeout },
      callback := callback,
      initialized := true }

/-- Embeds `USBTransfer.setIsochronous` (lines 212-219): raises `ValueError`
when submitted, otherwise `NotImplementedError`. -/
def setIsochronous (t : USBTransfer) : Except PyError USBTransfer :=
  if t.submitted then
    .error (.valueError "Cannot alter a submitted transfer")
  else
    .error .notImplementedError

/-- Overwrite `wLength` (bytes 6 and 7, little endian) of a control
buffer, as `cast(string_buffer, libusb_control_setup_p).contents.wLength
= wLength` does (truncating to `c_uint16`). -/
def setWLength (buf : List Nat) (w : Nat) : List Nat :=
  (buf.set 6 (w % 256)).set 7 (w / 256 % 256)

/-- Embeds `USBTransfer.setBuffer` (lines 247-270): raises `ValueError` when
submitted; for a control transfer keeps the first 8 setup bytes,
replaces the payload and rewrites `wLength`; otherwise just replaces
the buffer.  Updates the native `buffer` and `length` fields. -/
def setBuffer (t : USBTransfer) (buffer_or_len : Sum (List Nat) Nat) :
    Except PyError USBTransfer :=
  if t.submitted then
    .error (.valueError "Cannot alter a submitted transfer")
  else
    let string_buffer : List Nat :=
      match t.transfer.type with
      | .control =>
        let setup := t.transfer.buffer.take LIBUSB_CONTROL_SETUP_SIZE
        let p : Nat × List Nat :=
          match buffer_or_len with
          | .inl s => (s.length, create_string_buffer (.inl (setup ++ s)))
          | .inr n =>
            (n, create_string_buffer2 setup (n + LIBUSB_CONTROL_SETUP_SIZE))
        setWLength p.2 p.1
      | _ => create_string_buffer buffer_or_len
    .ok { t with
      transfer := { t.transfer with
        buffer := string_buffer, length := string_buffer.length } }

/-- Embeds `USBTransfer.close` (lines 79-95): raises `ValueError` when
submitted; otherwise clears `__initialized` and `__callback`.  The
native handle is not released here. -/
def close (t : USBTransfer) : Except PyError USBTransfer :=
  if t.submitted then
    .error (.valueError "Cannot close a submitted transfer")
  else
    .ok { t with initialized := false, callback := none }

/-- Embeds `USBTransfer.submit` (lines 278-291): raises `ValueError` when the
transfer was never initialised, then `ValueError` when no callback is
set, then calls `libusb_submit_transfer` (whose return code is the
`result` argument); a nonzero code raises `USBError(result)` before
`__submitted` is assigned, and only on zero is `__submitted` set.
There is no check of `self.__submitted` itself. -/
def submit (t : USBTransfer) (result : Int) : Except PyError USBTransfer :=
  if !t.initialized then
    .error (.valueError "Cannot submit a transfer until it has been initialized")
  else if t.callback.isNone then
    .error (.valueError "A callback must be set on transfer before it can be submitted")
  else if result ≠ 0 then
    .error (.usbError result)
  else
    .ok { t with submitted := true }

/-- Embeds `USBTransfer.cancel` (lines 293-302): calls
`libusb_cancel_transfer` (return code `result`); any nonzero code —
including `LIBUSB_ERROR_NOT_FOUND` — raises `USBError(result)` before
`__submitted` is assigned; on zero, `__submitted` is cleared. -/
def cancel (t : USBTransfer) (result : Int) : Except PyError USBTransfer :=
  if result ≠ 0 then
    .error (.usbError result)
  else
    .ok { t with submitted := false }

/-- Embeds `USBTransfer.__del__` (lines 97-106): calls `cancel`; a
`USBError` whose code is `LIBUSB_ERROR_NOT_FOUND` is swallowed, any
other is re-raised; the native handle is freed in the `finally` block
either way (resource release itself is not an observable here). -/
def del (t : USBTransfer) (cancelResult : Int) : Except PyError Unit :=
  match cancel t cancelResult with
  | .ok _ => .ok ()
  | .error (.usbError code) =>
    if code ≠ LIBUSB_ERROR_NOT_FOUND then .error (.usbError code)
    else .ok ()
  | .error e => .error e

end USBTransfer

/-- One observable step performed by
`USBTransferHelper.__callbackDispatcher`: invoking a dispatch callback
with the transfer's contents as argument, or calling `self.submit()`
to resubmit the wrapped transfer. -/
inductive DispatchStep where
  | invoke (cb : UserCallback) (arg : NativeTransfer)
  | resubmit

/-- The state of a `USBTransferHelper` instance (usb1.py lines
304-376): the wrapped transfer, `__event_callback_dict` (a dict from
status code to callable, embedded as an association list where an
insertion conses in front and lookup takes the first hit), and
`__errorCallback`. -/
structure USBTransferHelper where
  transfer : USBTransfer
  event_callback_dict : List (Nat × UserCallback)
  errorCallback : UserCallback

namespace USBTransferHelper

/-- The value `USBTransferHelper.__init__` stores into the wrapped
transfer's callback slot: the bound method `self.__callbackDispatcher`,
a unary callable.  Its Lean-level behaviour is `callbackDispatcher`
below; the stored marker only records that a unary callable is
installed (the structure cannot contain the dispatcher itself). -/
def dispatcherCallable : UserCallback :=
  { arity := 1, fn := fun _ => false }

/-- Embeds `USBTransferHelper.__init__` (lines 314-322): stores the transfer,
overwrites its callback with `self.__callbackDispatcher` (raising like
`setCallback` if the transfer is submitted), starts with an empty
event-callback dict and the module-level default error callback. -/
def init (transfer : USBTransfer) : Except PyError USBTransferHelper :=
  match transfer.setCallback (some dispatcherCallable) with
  | .error e => .error e
  | .ok t =>
    .ok { transfer := t, event_callback_dict := [],
          errorCallback := DEFAULT_ASYNC_TRANSFER_ERROR_CALLBACK }

/-- Embeds `USBTransferHelper.setEventCallback` (lines 336-343): raises
`ValueError` for an event outside `EVENT_CALLBACK_SET`, otherwise
stores the callback in the dict. -/
def setEventCallback (h : USBTransferHelper) (event : Nat)
    (callback : UserCallback) : Except PyError USBTransferHelper :=
  if event ∉ EVENT_CALLBACK_SET then
    .error (.valueError "Unknown event")
  else
    .ok { h with event_callback_dict := (event, callback) :: h.event_callback_dict }

/-- Embeds `USBTransferHelper.setDefaultCallback` (lines 345-351). -/
def setDefaultCallback (h : USBTransferHelper) (callback : UserCallback) :
    USBTransferHelper :=
  { h with errorCallback := callback }

/-- Embeds `USBTransferHelper.getEventCallback` (lines 353-357):
`self.__event_callback_dict.get(event, default)`. -/
def getEventCallback (h : USBTransferHelper) (event : Nat)
    (default : Option UserCallback) : Option UserCallback :=
  match h.event_callback_dict.lookup event with
  | some cb => some cb
  | none => default

/-- Embeds `USBTransferHelper.__callbackDispatcher` (lines 359-363), invoked
by the transfer's trampoline with the wrapped transfer (the `assert
transfer is self.__transfer` identity holds by construction here):
looks up the callback registered for the transfer's current status,
falling back to `self.__errorCallback`; calls it with the transfer as
sole argument; if the call returns a truthy value, calls
`self.submit()`, i.e. `USBTransfer.submit` on the wrapped transfer
(`submitResult` being the native return code of that resubmission).
The returned step list records the calls made, in order.  A `none`
callback would be called like any Python object and raise `TypeError`. -/
def callbackDispatcher (h : USBTransferHelper) (submitResult : Int) :
    Except PyError (USBTransferHelper × List DispatchStep) :=
  let t := h.transfer
  match getEventCallback h t.getStatus (some h.errorCallback) with
  | none => .error .typeError
  | some cb =>
    match callCallable cb [t.transfer] with
    | .error e => .error e
    | .ok r =>
      if r then
        match t.submit submitResult with
        | .error e => .error e
        | .ok t' =>
          .ok ({ h with transfer := t' },
               [.invoke cb t.transfer, .resubmit])
      else
        .ok (h, [.invoke cb t.transfer])

/-- A completion event delivered to a helper-wrapped transfer: the
native engine stores the completion status into the native structure
and fires `USBTransfer.__callbackWrapper` (lines 108-117), which
clears `__submitted` and then synchronously calls the stored callback
— here the helper's `__callbackDispatcher`. -/
def onCompletion (h : USBTransferHelper) (status : Nat)
    (submitResult : Int) :
    Except PyError (USBTransferHelper × List DispatchStep) :=
  let t := h.transfer
  let t1 : USBTransfer :=
    { t with submitted := false,
             transfer := { t.transfer with status := status } }
  callbackDispatcher { h with transfer := t1 } submitResult

end USBTransferHelper

/-- A pollfd notification from the native engine: libusb invoking the
added or removed notifier registered by `USBPoller.__init__`
(`_registerFD` / `_unregisterFD`, lines 445-451). -/
inductive PollFDNotification where
  | add (fd : Nat)
  | remove (fd : Nat)
  deriving DecidableEq, Repr

/-- Embeds `USBPoller._registerFD` (line 445) restricted to its effect on
`self.__fd_set`: `set.add` (the forwarding to the external multiplexer
carries no further state here).  The list models a set: an element
already present is not duplicated. -/
def registerFD (fd_set : List Nat) (fd : Nat) : List Nat :=
  if fd ∈ fd_set then fd_set else fd_set ++ [fd]

/-- Embeds `USBPoller._unregisterFD` (line 449) restricted to its effect on
`self.__fd_set`: `set.discard`. -/
def unregisterFD (fd_set : List Nat) (fd : Nat) : List Nat :=
  fd_set.filter (fun x => x ≠ fd)

/-- Apply one pollfd notification to the fd set. -/
def applyNotification (fd_set : List Nat) :
    PollFDNotification → List Nat
  | .add fd => registerFD fd_set fd
  | .remove fd => unregisterFD fd_set fd

/-- Modelled from the spec: `LibUSBContext.handleEventsTimeout` drains
ready native events (spec §4.3 step 4, §6 `processReadyEventsNonBlocking`);
while doing so the native engine may invoke the pollfd notifiers the
poller registered (`setPollFDNotifiers(self._registerFD,
self._unregisterFD)`, line 401; spec §3: "PollSet membership is kept in
sync with add/remove notifications from the native engine for the
lifetime of the bridge").  The notifications it emits are taken as an
environment input; this is their effect on `self.__fd_set`. -/
def handleEventsTimeoutFDs (fd_set : List Nat)
    (notifications : List PollFDNotification) : List Nat :=
  notifications.foldl applyNotification fd_set

/-- Embeds `min(next_usb_timeout or timeout, timeout)` merging of
`USBPoller.poll` (lines 415-419).  Python truthiness: `x or y` yields
`y` when `x` is `None` or `0.0`. -/
def usb_timeout_of (timeout next_usb_timeout : Option ℚ) : Option ℚ :=
  match timeout with
  | none => next_usb_timeout
  | some t =>
    some (min
      (match next_usb_timeout with
       | none => t
       | some d => if d = 0 then t else d)
      t)

/-- What one `USBPoller.poll` call observably does: the timeout handed
to the external multiplexer's `poll`, the event list returned to the
caller, the fd set after the call, and whether
`handleEventsTimeout` was invoked. -/
structure PollOutcome where
  usb_timeout : Option ℚ
  result : List (Nat × Nat)
  fd_set : List Nat
  handled : Bool

/-- Embeds `USBPoller.poll` (lines 408-429).  Environment inputs: the caller
`timeout`, `context.getNextTimeout()` (`next_usb_timeout`), the
`(fd, events)` list the external multiplexer returns (`event_list`),
and the pollfd notifications the native engine emits if
`context.handleEventsTimeout()` runs (`notifications`).  The filter
drops entries whose fd is in `self.__fd_set` as captured before the
multiplexer call; `handleEventsTimeout` runs afterwards — when entries
were dropped or the multiplexer returned nothing — and its
notifications update the fd set without re-filtering `result`. -/
def USBPoller_poll (fd_set : List Nat) (timeout next_usb_timeout : Option ℚ)
    (event_list : List (Nat × Nat))
    (notifications : List PollFDNotification) : PollOutcome :=
  let usb_timeout := usb_timeout_of timeout next_usb_timeout
  if event_list.length ≠ 0 then
    let result := event_list.filter (fun p => p.1 ∉ fd_set)
    if result.length ≠ event_list.length then
      { usb_timeout := usb_timeout, result := result,
        fd_set := handleEventsTimeoutFDs fd_set notifications,
        handled := true }
    else
      { usb_timeout := usb_timeout, result := result,
        fd_set := fd_set, handled := false }
  else
    { usb_timeout := usb_timeout, result := event_list,
      fd_set := handleEventsTimeoutFDs fd_set notifications,
      handled := true }

/-- Embeds `LibUSBContext.getNextTimeout` (lines 1098-1113): native result 0
means no pending timeout (`None`), 1 converts the timeval to seconds,
anything else raises `USBError`. -/
def getNextTimeout (result : Int) (tv_sec tv_usec : Nat) :
    Except PyError (Option ℚ) :=
  if result = 0 then .ok none
  else if result = 1 then
    .ok (some ((tv_sec : ℚ) + (tv_usec : ℚ) * (1 / 1000000)))
  else .error (.usbError result)

/-- Follows the spec's words, for comparison with `usb_timeout_of`
(spec §4.3 step 1): "Compute `effectiveTimeout = min(timeout,
context.nextDeadline())` where either side may be absent (no bound);
absence of both means block indefinitely." -/
def effectiveTimeout_spec : Option ℚ → Option ℚ → Option ℚ
  | none, d => d
  | some t, none => some t
  | some t, some d => some (min t d)

/-! Concrete instances used by counterexamples and witnesses. -/

/-- A unary user callback that asks for resubmission. -/
def trueCallback : UserCallback :=
  { arity := 1, fn := fun _ => true }

/-- A unary user callback that declines resubmission. -/
def falseCallback : UserCallback :=
  { arity := 1, fn := fun _ => false }

/-- A transfer configured as a bulk read on endpoint 0x81 with a unary
callback installed — the state after `setBulk(0x81, 8, callback)` on a
fresh transfer. -/
def configuredTransfer : USBTransfer :=
  { transfer :=
      { NativeTransfer.fresh with
        type := .bulk, endpoint := 0x81,
        buffer := List.replicate 8 0, length := 8 },
    initialized := true, submitted := false,
    callback := some trueCallback }

/-- The configured transfer after a successful submission. -/
def submittedTransfer : USBTransfer :=
  { configuredTransfer with submitted := true }

/-- A helper wrapping a completed bulk transfer, with a resubmitting
callback registered for the `completed` outcome. -/
def completedHelper : USBTransferHelper :=
  { transfer :=
      { configuredTransfer with
        callback := some USBTransferHelper.dispatcherCallable },
    event_callback_dict := [(LIBUSB_TRANSFER_COMPLETED, trueCallback)],
    errorCallback := DEFAULT_ASYNC_TRANSFER_ERROR_CALLBACK }

/-- One concrete poll cycle: PollSet is `{1}`; the multiplexer reports
descriptors 1 and 2 ready; descriptor 1 is filtered out, so
`handleEventsTimeout` runs, and during it the native engine registers
descriptor 2 into the PollSet. -/
def pollCycleOutcome : PollOutcome :=
  USBPoller_poll [1] none none [(1, 0), (2, 0)] [.add 2]

/-! Theorems settling the claims. -/

/-- C1, counterexample.  The claim says `cancel()` on a native "not
found" outcome surfaces no error and is treated as success; on the
code, `USBTransfer.cancel` raises `USBError(LIBUSB_ERROR_NOT_FOUND)`
like any other nonzero native result (the input here is a fresh
transfer whose native cancel call reports "not found"). -/
theorem cancel_not_found_raises_cex :
    USBTransfer.cancel USBTransfer.fresh LIBUSB_ERROR_NOT_FOUND
      = Except.error (PyError.usbError LIBUSB_ERROR_NOT_FOUND) := by
  rfl

/-- C1, amended.  `USBTransfer.cancel` propagates `USBError(code)` for
every nonzero native result, "not found" included, leaving the state
untouched; it clears `__submitted` only on native success.  The "not
found" suppression lives solely in the destructor `USBTransfer.del`,
which swallows exactly that code and re-raises any other. -/
theorem cancel_propagates_del_swallows_not_found
    (t : USBTransfer) (r : Int) :
    (r ≠ 0 → USBTransfer.cancel t r = .error (.usbError r)) ∧
    USBTransfer.cancel t 0 = .ok { t with submitted := false } ∧
    USBTransfer.del t LIBUSB_ERROR_NOT_FOUND = .ok () ∧
    (r ≠ 0 → r ≠ LIBUSB_ERROR_NOT_FOUND →
      USBTransfer.del t r = .error (.usbError r)) := by
  refine ⟨fun hr => ?_, ?_, ?_, fun hr hnf => ?_⟩
  · simp [USBTransfer.cancel, hr]
  · simp [USBTransfer.cancel]
  · simp [USBTransfer.del, USBTransfer.cancel, LIBUSB_ERROR_NOT_FOUND]
  · simp [USBTransfer.del, USBTransfer.cancel, hr, hnf]

/-- Witness for C1's amended theorem at a fresh transfer and native
result `-1`. -/
theorem cancel_propagates_del_swallows_not_found_witness :
    (USBTransfer.cancel USBTransfer.fresh (-1)
        = .error (.usbError (-1))) ∧
    USBTransfer.cancel USBTransfer.fresh 0
        = .ok { USBTransfer.fresh with submitted := false } ∧
    USBTransfer.del USBTransfer.fresh LIBUSB_ERROR_NOT_FOUND = .ok () ∧
    USBTransfer.del USBTransfer.fresh (-1)
        = .error (.usbError (-1)) := by
  have h := cancel_propagates_del_swallows_not_found USBTransfer.fresh (-1)
  exact ⟨h.1 (by decide), h.2.1, h.2.2.1,
    h.2.2.2 (by decide) (by decide)⟩

/-- C2: the code contradicts its own documentation.  Scenario from the
claim: configure a bulk transfer, wrap it in a `USBTransferHelper`,
register an outcome callback for `stall` only, never call
`setDefaultCallback`, submit, and let a completion arrive with status
`no-device`.  The dispatcher falls back to the initial default
callback `lambda x, y: False` — a two-parameter callable — and calls
it with a single argument, so the call raises `TypeError` instead of
returning `False` as the docstring of `setDefaultCallback` promises
("The initial default callback does nothing and returns false"). -/
theorem default_callback_arity_mismatch :
    DEFAULT_ASYNC_TRANSFER_ERROR_CALLBACK.arity = 2 ∧
    (do
      let t ← USBTransfer.setBulk USBTransfer.fresh 0x81 (.inr 8) none 0
      let h ← USBTransferHelper.init t
      let h ← h.setEventCallback LIBUSB_TRANSFER_STALL trueCallback
      let t2 ← h.transfer.submit 0
      USBTransferHelper.onCompletion { h with transfer := t2 }
        LIBUSB_TRANSFER_NO_DEVICE 0)
      = Except.error PyError.typeError := by
  exact ⟨rfl, rfl⟩

/-- C3, counterexample.  The claim says the direction bit of the
caller-supplied endpoint or request-type is always overridden to the
operation's read/write intent; on the code, `setBulk` stores the
caller's endpoint unmodified (0x01 stays OUT, 0x81 stays IN) and
`setControl` stores the caller's `request_type` byte unmodified, so
the stored direction bit follows the caller, not any fixed intent. -/
theorem configure_direction_not_overridden_cex :
    ((USBTransfer.setBulk USBTransfer.fresh 0x01 (.inr 4) none 0).map
        fun t => t.transfer.endpoint) = .ok 0x01 ∧
    ((USBTransfer.setBulk USBTransfer.fresh 0x81 (.inr 4) none 0).map
        fun t => t.transfer.endpoint) = .ok 0x81 ∧
    (0x01 : Nat).testBit 7 = false ∧ (0x81 : Nat).testBit 7 = true ∧
    ((USBTransfer.setControl USBTransfer.fresh 0x00 6 0 0 (.inr 4)
        none 0).map fun t => t.transfer.buffer.headD 0) = .ok 0x00 ∧
    ((USBTransfer.setControl USBTransfer.fresh 0x80 6 0 0 (.inr 4)
        none 0).map fun t => t.transfer.buffer.headD 0) = .ok 0x80 := by
  refine ⟨rfl, rfl, by decide, by decide, rfl, rfl⟩

/-- C3, amended.  `setControl`/`setBulk`/`setInterrupt` pass the
caller-supplied direction bit through unmodified (only `c_ubyte`
truncation applies): the stored endpoint equals the caller's endpoint
and the stored `bmRequestType` byte equals the caller's
`request_type`.  Direction forcing exists only in the synchronous
`controlWrite`/`controlRead`/`bulkWrite`/`bulkRead`/
`interruptWrite`/`interruptRead` convenience methods, which are not
the configure operations. -/
theorem configure_direction_passthrough (t : USBTransfer)
    (hsub : t.submitted = false) (request_type request value index : Nat)
    (endpoint : Nat) (buffer_or_len : Sum (List Nat) Nat)
    (callback : Option UserCallback) (timeout : Nat) :
    ((t.setControl request_type request value index buffer_or_len
        callback timeout).map fun x => x.transfer.buffer.headD 0)
      = .ok (request_type % 256) ∧
    ((t.setBulk endpoint buffer_or_len callback timeout).map
        fun x => x.transfer.endpoint) = .ok (endpoint % 256) ∧
    ((t.setInterrupt endpoint buffer_or_len callback timeout).map
        fun x => x.transfer.endpoint) = .ok (endpoint % 256) := by
  refine ⟨?_, ?_, ?_⟩ <;>
    simp [USBTransfer.setControl, USBTransfer.setBulk,
      USBTransfer.setInterrupt, libusb_fill_control_setup, hsub,
      Except.map]

/-- Witness for C3's amended theorem: a fresh transfer, request type
0x80, endpoint 0x01. -/
theorem configure_direction_passthrough_witness :
    ((USBTransfer.setControl USBTransfer.fresh 0x80 6 0 0 (.inr 4)
        none 0).map fun x => x.transfer.buffer.headD 0) = .ok 0x80 ∧
    ((USBTransfer.setBulk USBTransfer.fresh 0x01 (.inr 4) none 0).map
        fun x => x.transfer.endpoint) = .ok 0x01 ∧
    ((USBTransfer.setInterrupt USBTransfer.fresh 0x01 (.inr 4)
        none 0).map fun x => x.transfer.endpoint) = .ok 0x01 := by
  exact configure_direction_passthrough USBTransfer.fresh rfl
    0x80 6 0 0 0x01 (.inr 4) none 0

/-- C4, counterexample.  The claim says `submit()` on a transfer in
the `submitted` state must fail with InvalidState; on the code,
`submit` never checks `__submitted`: on an initialised, submitted
transfer with a callback set, a second `submit()` whose native call
succeeds returns normally and leaves the transfer submitted. -/
theorem submit_while_submitted_succeeds_cex :
    submittedTransfer.submitted = true ∧
    USBTransfer.submit submittedTransfer 0
      = .ok { submittedTransfer with submitted := true } := by
  exact ⟨rfl, rfl⟩

/-- C4, amended.  `submit()` checks only initialisation and callback
presence, never `__submitted`, so it does not enforce "at most one
outstanding submission": on any initialised transfer with a callback
— submitted or not — it succeeds exactly when the native layer
accepts, and a native rejection surfaces as `USBError`, not
InvalidState. -/
theorem submit_has_no_submitted_check (t : USBTransfer) (r : Int)
    (hinit : t.initialized = true) (hcb : t.callback.isSome = true) :
    (r = 0 → USBTransfer.submit t r = .ok { t with submitted := true }) ∧
    (r ≠ 0 → USBTransfer.submit t r = .error (.usbError r)) := by
  constructor <;> intro hr <;>
    simp [USBTransfer.submit, hinit, hr, Option.isNone_iff_eq_none,
      Option.isSome_iff_ne_none.mp hcb]

/-- Witness for C4's amended theorem at the already-submitted
transfer with native acceptance. -/
theorem submit_has_no_submitted_check_witness :
    USBTransfer.submit submittedTransfer 0
      = .ok { submittedTransfer with submitted := true } :=
  (submit_has_no_submitted_check submittedTransfer 0 rfl rfl).1 rfl

/-- C5: `submit()` raises `ValueError` (InvalidState) when the
transfer was never initialised by a `set*` call; raises `ValueError`
when no callback is set; on a nonzero native result raises
`USBError` carrying that code — the exception fires before
`__submitted` is assigned, so the state is unchanged and the transfer
is not submitted; and only on native success does it set
`__submitted`. -/
theorem submit_invalid_state_and_native_error (t : USBTransfer) (r : Int) :
    (t.initialized = false → USBTransfer.submit t r
      = .error (.valueError
          "Cannot submit a transfer until it has been initialized")) ∧
    (t.callback = none → t.initialized = true → USBTransfer.submit t r
      = .error (.valueError
          "A callback must be set on transfer before it can be submitted")) ∧
    (t.initialized = true → t.callback.isSome = true → r ≠ 0 →
      USBTransfer.submit t r = .error (.usbError r)) ∧
    (t.initialized = true → t.callback.isSome = true → r = 0 →
      USBTransfer.submit t r = .ok { t with submitted := true }) := by
  refine ⟨fun h => ?_, fun hcb h => ?_, fun h hcb hr => ?_,
    fun h hcb hr => ?_⟩
  · simp [USBTransfer.submit, h]
  · simp [USBTransfer.submit, h, hcb]
  · simp [USBTransfer.submit, h, hr, Option.isNone_iff_eq_none,
      Option.isSome_iff_ne_none.mp hcb]
  · simp [USBTransfer.submit, h, hr, Option.isNone_iff_eq_none,
      Option.isSome_iff_ne_none.mp hcb]

/-- Witness for C5 at a fresh transfer (never configured), a
configured transfer without callback, and a configured transfer with
callback facing native rejection `-1` and native success. -/
theorem submit_invalid_state_and_native_error_witness :
    (USBTransfer.submit USBTransfer.fresh 0
      = .error (.valueError
          "Cannot submit a transfer until it has been initialized")) ∧
    (USBTransfer.submit { configuredTransfer with callback := none } 0
      = .error (.valueError
          "A callback must be set on transfer before it can be submitted")) ∧
    (USBTransfer.submit configuredTransfer (-1)
      = .error (.usbError (-1))) ∧
    (USBTransfer.submit configuredTransfer 0
      = .ok { configuredTransfer with submitted := true }) := by
  exact ⟨(submit_invalid_state_and_native_error USBTransfer.fresh 0).1 rfl,
    (submit_invalid_state_and_native_error
      { configuredTransfer with callback := none } 0).2.1 rfl rfl,
    (submit_invalid_state_and_native_error configuredTransfer (-1)).2.2.1
      rfl rfl (by decide),
    (submit_invalid_state_and_native_error configuredTransfer 0).2.2.2
      rfl rfl rfl⟩

/-- C6: on a submitted transfer, `setControl`, `setBulk`,
`setInterrupt`, `setBuffer`, `setCallback` and `close` all raise
`ValueError` (InvalidState) — the exception fires before any
assignment, so the transfer is unchanged — while `cancel` alone never
raises `ValueError`: it proceeds to the native layer, succeeding on
native acceptance and surfacing only native errors otherwise. -/
theorem mutators_invalid_state_while_submitted (t : USBTransfer)
    (hsub : t.submitted = true)
    (request_type request value index endpoint : Nat)
    (buffer_or_len : Sum (List Nat) Nat) (callback : Option UserCallback)
    (timeout : Nat) (r : Int) :
    t.setControl request_type request value index buffer_or_len callback
        timeout = .error (.valueError "Cannot alter a submitted transfer") ∧
    t.setBulk endpoint buffer_or_len callback timeout
      = .error (.valueError "Cannot alter a submitted transfer") ∧
    t.setInterrupt endpoint buffer_or_len callback timeout
      = .error (.valueError "Cannot alter a submitted transfer") ∧
    t.setBuffer buffer_or_len
      = .error (.valueError "Cannot alter a submitted transfer") ∧
    t.setCallback callback
      = .error (.valueError "Cannot alter a submitted transfer") ∧
    t.close = .error (.valueError "Cannot close a submitted transfer") ∧
    (r = 0 → t.cancel r = .ok { t with submitted := false }) ∧
    (∀ m, t.cancel r ≠ .error (.valueError m)) := by
  refine ⟨?_, ?_, ?_, ?_, ?_, ?_, fun hr => ?_, fun m => ?_⟩
  · simp [USBTransfer.setControl, hsub]
  · simp [USBTransfer.setBulk, hsub]
  · simp [USBTransfer.setInterrupt, hsub]
  · simp [USBTransfer.setBuffer, hsub]
  · simp [USBTransfer.setCallback, hsub]
  · simp [USBTransfer.close, hsub]
  · simp [USBTransfer.cancel, hr]
  · by_cases hr : r = 0 <;> simp [USBTransfer.cancel, hr]

/-- Witness for C6 at the submitted transfer. -/
theorem mutators_invalid_state_while_submitted_witness :
    submittedTransfer.setBulk 0x81 (.inr 8) none 0
      = .error (.valueError "Cannot alter a submitted transfer") ∧
    submittedTransfer.close
      = .error (.valueError "Cannot close a submitted transfer") ∧
    submittedTransfer.cancel 0
      = .ok { submittedTransfer with submitted := false } := by
  have h := mutators_invalid_state_while_submitted submittedTransfer rfl
    0 0 0 0 0x81 (.inr 8) none 0 0
  exact ⟨h.2.1, h.2.2.2.2.2.1, h.2.2.2.2.2.2.1 rfl⟩

/-- C7: on a completion, `__callbackDispatcher` picks the callback
registered for the transfer's current status — the default fallback if
none is registered (`hlookup` names the picked callback) — and, when
that callback is a unary callable on an initialised transfer whose
callback slot is set and the native layer accepts resubmission,
invokes it exactly once with the transfer; if it returns `True` the
dispatcher then calls `submit()` on the same transfer exactly once,
after the callback has returned and before the dispatcher itself
returns (the `.resubmit` step follows the single `.invoke` step in the
same step list), leaving the transfer submitted; if it returns `False`
no resubmission happens and the transfer is left as the trampoline
left it, not submitted. -/
theorem dispatcher_invokes_once_resubmits_iff
    (h : USBTransferHelper) (res : Int) (cb : UserCallback)
    (hlookup : h.getEventCallback h.transfer.getStatus
      (some h.errorCallback) = some cb)
    (harity : cb.arity = 1)
    (hinit : h.transfer.initialized = true)
    (hcb : h.transfer.callback.isSome = true)
    (hres : res = 0) :
    (cb.fn [h.transfer.transfer] = true →
      h.callbackDispatcher res
        = .ok ({ h with transfer := { h.transfer with submitted := true } },
               [.invoke cb h.transfer.transfer, .resubmit])) ∧
    (cb.fn [h.transfer.transfer] = false →
      h.callbackDispatcher res
        = .ok (h, [.invoke cb h.transfer.transfer])) := by
  constructor <;> intro hfn <;>
    simp [USBTransferHelper.callbackDispatcher, hlookup, callCallable,
      harity, hfn, USBTransfer.submit, hinit, hres,
      Option.isNone_iff_eq_none, Option.isSome_iff_ne_none.mp hcb]

/-- Witness for C7 at a helper whose `completed` callback asks for
resubmission, on a completed transfer with native acceptance. -/
theorem dispatcher_invokes_once_resubmits_iff_witness :
    completedHelper.callbackDispatcher 0
      = .ok ({ completedHelper with
               transfer :=
                 { completedHelper.transfer with submitted := true } },
             [.invoke trueCallback completedHelper.transfer.transfer,
              .resubmit]) :=
  (dispatcher_invokes_once_resubmits_iff completedHelper 0 trueCallback
    rfl rfl rfl rfl rfl).1 rfl

/-- C8, counterexample.  The claim says the timeout handed to the
external multiplexer equals `min(timeout, deadline)` and that a
present deadline of zero yields an effective timeout of zero; on the
code, `min(next_usb_timeout or timeout, timeout)` treats a deadline of
`0.0` as falsy, so with caller timeout 5 and deadline 0 the
multiplexer is polled with 5, not 0. -/
theorem poll_timeout_zero_deadline_cex :
    usb_timeout_of (some 5) (some 0) = some 5 ∧
    effectiveTimeout_spec (some 5) (some 0) = some 0 ∧
    usb_timeout_of (some 5) (some 0)
      ≠ effectiveTimeout_spec (some 5) (some 0) ∧
    (USBPoller_poll [] (some 5) (some 0) [] []).usb_timeout = some 5 := by
  refine ⟨by decide, by decide, by decide, by decide⟩

/-- C8, amended.  `USBPoller.poll` hands the multiplexer
`usb_timeout_of timeout deadline`, which equals the spec's
`min(timeout, deadline)` merge (absent sides imposing no bound)
whenever the deadline is not exactly zero; a deadline of zero is
treated as absent by Python truthiness, so with a present caller
timeout the effective timeout is the caller timeout, and a zero
deadline reaches the multiplexer only when the caller timeout is
absent. -/
theorem poll_timeout_merge_amended (tq : ℚ) (t d : Option ℚ)
    (s : List Nat) (evs : List (Nat × Nat))
    (ns : List PollFDNotification) :
    (USBPoller_poll s t d evs ns).usb_timeout = usb_timeout_of t d ∧
    usb_timeout_of none d = d ∧
    (d ≠ some 0 →
      usb_timeout_of (some tq) d = effectiveTimeout_spec (some tq) d) ∧
    usb_timeout_of (some tq) (some 0) = some tq := by
  refine ⟨?_, rfl, fun hd => ?_, ?_⟩
  · simp only [USBPoller_poll]
    split_ifs <;> rfl
  · cases d with
    | none => simp [usb_timeout_of, effectiveTimeout_spec]
    | some dq =>
      have hdq : dq ≠ 0 := fun h0 => hd (by rw [h0])
      simp [usb_timeout_of, effectiveTimeout_spec, hdq, min_comm]
  · simp [usb_timeout_of]

/-- Witness for C8's amended theorem at caller timeout 3 and deadlines
2 and 0. -/
theorem poll_timeout_merge_amended_witness :
    (USBPoller_poll [] (some 3) (some 2) [] []).usb_timeout
      = usb_timeout_of (some 3) (some 2) ∧
    usb_timeout_of none (some 2) = some 2 ∧
    usb_timeout_of (some 3) (some 2)
      = effectiveTimeout_spec (some 3) (some 2) ∧
    usb_timeout_of (some 3) (some 0) = some 3 := by
  have h := poll_timeout_merge_amended 3 (some 3) (some 2) [] [] []
  exact ⟨h.1, h.2.1, h.2.2.1 (by decide), h.2.2.2⟩

/-- C9, counterexample.  The claim says the returned event list never
contains a descriptor that is a member of the PollSet, including one
added to the PollSet during the same cycle; on the code, the filter
runs before `handleEventsTimeout`, so when event processing makes the
native engine register a descriptor that the multiplexer had already
reported ready as a foreign descriptor, `poll` returns that descriptor
even though it is now in the PollSet. -/
theorem poll_returns_fd_added_in_cycle_cex :
    pollCycleOutcome.result = [(2, 0)] ∧
    pollCycleOutcome.fd_set = [1, 2] ∧
    (2, 0) ∈ pollCycleOutcome.result ∧ 2 ∈ pollCycleOutcome.fd_set := by
  refine ⟨by decide, by decide, by decide, by decide⟩

/-- C9, amended.  The event list `poll` returns contains no descriptor
that was a member of its internal fd set at partition time, i.e. as
the set stood when the multiplexer returned; descriptors the native
engine adds later in the same cycle, while `handleEventsTimeout`
runs, are not filtered from the already-computed result. -/
theorem poll_result_excludes_partition_time_pollset
    (fd_set : List Nat) (timeout next_usb : Option ℚ)
    (event_list : List (Nat × Nat)) (ns : List PollFDNotification)
    (p : Nat × Nat)
    (hp : p ∈ (USBPoller_poll fd_set timeout next_usb event_list ns).result) :
    p.1 ∉ fd_set := by
  simp only [USBPoller_poll] at hp
  split at hp
  · split at hp <;>
      simpa using (List.mem_filter.mp hp).2
  · next h0 =>
    have he : event_list = [] := List.length_eq_zero.mp (not_not.mp h0)
    subst he
    simp at hp

/-- Witness for C9's amended theorem: in the concrete cycle,
descriptor 2 is returned and was indeed not in the partition-time
PollSet `{1}`. -/
theorem poll_result_excludes_partition_time_pollset_witness :
    (2, 0) ∈ pollCycleOutcome.result ∧ (2 : Nat) ∉ [1] :=
  ⟨by decide,
   poll_result_excludes_partition_time_pollset [1] none none
     [(1, 0), (2, 0)] [.add 2] (2, 0) (by decide)⟩

/-- C10: every successful `setControl`/`setBulk`/`setInterrupt` stores
its `callback` argument — whose Python default is `None` — into the
transfer's callback slot unconditionally; hence reconfiguring a
transfer that had a callback installed, without passing one, leaves
the slot `None`, and a subsequent `submit()` fails with `ValueError`
because no callback is set. -/
theorem reconfigure_clears_callback (t : USBTransfer)
    (cb0 : UserCallback) (hsub : t.submitted = false)
    (_hcb : t.callback = some cb0)
    (request_type request value index endpoint : Nat)
    (buffer_or_len : Sum (List Nat) Nat) (timeout : Nat)
    (cbArg : Option UserCallback) (r : Int) :
    ((t.setBulk endpoint buffer_or_len cbArg timeout).map
        fun x => x.callback) = .ok cbArg ∧
    ((t.setInterrupt endpoint buffer_or_len cbArg timeout).map
        fun x => x.callback) = .ok cbArg ∧
    ((t.setControl request_type request value index buffer_or_len cbArg
        timeout).map fun x => x.callback) = .ok cbArg ∧
    ((t.setBulk endpoint buffer_or_len none timeout).bind
        fun x => x.submit r)
      = .error (.valueError
          "A callback must be set on transfer before it can be submitted") ∧
    ((t.setInterrupt endpoint buffer_or_len none timeout).bind
        fun x => x.submit r)
      = .error (.valueError
          "A callback must be set on transfer before it can be submitted") ∧
    ((t.setControl request_type request value index buffer_or_len none
        timeout).bind fun x => x.submit r)
      = .error (.valueError
          "A callback must be set on transfer before it can be submitted") := by
  refine ⟨?_, ?_, ?_, ?_, ?_, ?_⟩ <;>
    simp [USBTransfer.setBulk, USBTransfer.setInterrupt,
      USBTransfer.setControl, USBTransfer.submit, hsub, Except.map,
      Except.bind]

/-- Witness for C10 at a fresh transfer carrying a unary callback,
reconfigured as a bulk transfer with the callback argument omitted. -/
theorem reconfigure_clears_callback_witness :
    (((USBTransfer.fresh.setCallback (some trueCallback)).bind
        fun t => t.setBulk 0x81 (.inr 8) none 0).bind
      fun t => t.submit 0)
      = .error (.valueError
          "A callback must be set on transfer before it can be submitted") := by
  have h := reconfigure_clears_callback
    { USBTransfer.fresh with callback := some trueCallback }
    trueCallback rfl rfl 0 0 0 0 0x81 (.inr 8) 0 none 0
  simpa [USBTransfer.setCallback, Except.bind] using h.2.2.2.1

end Usb1
